import Mathlib

/-!
Verification of the ProofVault certification and retrieval pipeline.

This file gives a shallow embedding of the core modules of the repository:

* `contracts/contracts/FilecoinProofRegistry.sol` — the ledger registry
  (namespace `Reg`): Solidity mappings become association lists, `bytes32`
  hash values become `Nat` (with `0` playing `bytes32(0)`), `require`
  failures become `Except.error` carrying the revert string, and emitted
  events are accumulated in an explicit event log.
* `src/lib/wagmiConfig.js` — the `SimulatedBlockchain` class (namespace
  `Sim`): the JS `Map` becomes an association list, and the randomized
  transaction hash and the wall clock become explicit parameters.
* `src/lib/webhooks.js` (second half, the gateway module) — gateway
  health ranking and failover retrieval (namespace `Gw`): the JS
  `Array.prototype.sort` (required by the language spec to produce a
  stable, comparator-sorted array) is embedded as `List.insertionSort`
  over the relation "comparator result ≤ 0", and network attempts become
  an explicit outcome function.
* `src/lib/filecoinDeals.js` — deal tracking (namespace `Deals`):
  `Date.now()` becomes an explicit `now : Nat` (epoch milliseconds), and
  instants produced by `new Date(ms).toISOString()` are modelled by the
  millisecond value `ms` itself (the ISO rendering is injective in `ms`,
  so equalities of instants are preserved).  The `localStorage` deal
  cache becomes an association list.
* `src/lib/webhooks.js` (first half) — webhook store (namespace `Wh`):
  `localStorage` becomes an explicit list of webhook records, and the JS
  distinction between an absent key and a present value in the `updates`
  object becomes `Option`.
* `unnamed/part_003` — the ProofVault API service (namespace `Api`):
  `verifyProof` with the SHA-256 digest of the supplied file abstracted
  as the hex string it evaluates to.
-/

/-- Lookup in an association list, first binding wins (JS `Map.get` /
object property read). -/
def assocGet {α β : Type} [DecidableEq α] (l : List (α × β)) (k : α) : Option β :=
  (l.find? (fun p => p.1 == k)).map (·.2)

/-- Write a binding, JS `Map.set` / object property assignment semantics:
an existing key is updated in place, a new key is appended. -/
def assocSet {α β : Type} [DecidableEq α] (l : List (α × β)) (k : α) (v : β) :
    List (α × β) :=
  if l.any (fun p => p.1 == k) then
    l.map (fun p => if p.1 = k then (k, v) else p)
  else
    l ++ [(k, v)]

/-- JS `String.prototype.toLowerCase` restricted to the basic plane:
per-character lowering (the strings the source lowers are hex digests
and ASCII status words).  The core `String.toLower` is extensionally the
same but is defined through `String.mapAux`, which the kernel cannot
evaluate; this list-based form evaluates. -/
def String.jsToLower (s : String) : String := String.mk (s.data.map Char.toLower)

namespace Reg

/-- The `Proof` struct of `FilecoinProofRegistry.sol` (lines 14-23).
`bytes32 sha256Hash` is modelled as a `Nat` (`0` playing `bytes32(0)`),
`address registrant` as a `String`, `uint64[] dealIds` as `List Nat`. -/
structure Proof where
  sha256Hash : Nat
  cid : String
  proofId : String
  registrant : String
  timestamp : Nat
  blockNumber : Nat
  dealIds : List Nat
  storageProvider : String
deriving DecidableEq, Repr

/-- Value of `proofs[proofId]` at an absent key: a Solidity mapping
yields the zero-initialized struct. -/
def defaultProof : Proof :=
  { sha256Hash := 0, cid := "", proofId := "", registrant := "",
    timestamp := 0, blockNumber := 0, dealIds := [], storageProvider := "" }

/-- The `ProofRegistered` event (lines 52-59). -/
structure ProofRegisteredEvent where
  proofId : String
  sha256Hash : Nat
  cid : String
  registrant : String
  timestamp : Nat
  blockNumber : Nat
deriving DecidableEq, Repr

/-- Contract storage: the three mappings (lines 34-43), the counter
`totalProofs` (line 46), plus an explicit log of emitted events. -/
structure State where
  proofs : List (String × Proof)
  hashToProofId : List (Nat × String)
  cidToProofId : List (String × String)
  totalProofs : Nat
  events : List ProofRegisteredEvent
deriving DecidableEq, Repr

def emptyState : State :=
  { proofs := [], hashToProofId := [], cidToProofId := [], totalProofs := 0,
    events := [] }

/-- Read `proofs[proofId]` with Solidity mapping semantics (absent key
yields the zero struct). -/
def proofsAt (s : State) (proofId : String) : Proof :=
  (assocGet s.proofs proofId).getD defaultProof

/-- Read `hashToProofId[h]` (absent key yields the empty string). -/
def hashToProofIdAt (s : State) (h : Nat) : String :=
  (assocGet s.hashToProofId h).getD ""

/-- Read `cidToProofId[cid]` (absent key yields the empty string). -/
def cidToProofIdAt (s : State) (cid : String) : String :=
  (assocGet s.cidToProofId cid).getD ""

/-- `registerProof` (lines 82-120).  The five `require` statements in
source order, then the storage writes, the counter increment and the
`ProofRegistered` emission.  `msg.sender`, `block.timestamp` and
`block.number` are explicit parameters.  A failed `require` is an
`Except.error` carrying the revert string. -/
def registerProof (s : State) (sender : String) (blockTimestamp blockNumber : Nat)
    (proofId : String) (sha256Hash : Nat) (cid : String) (storageProvider : String) :
    Except String State :=
  if ¬ (proofId.length > 0) then .error "Invalid proof ID"
  else if ¬ (sha256Hash ≠ 0) then .error "Invalid hash"
  else if ¬ (cid.length > 0) then .error "Invalid CID"
  else if ¬ ((proofsAt s proofId).timestamp = 0) then .error "Proof ID already exists"
  else if ¬ ((hashToProofIdAt s sha256Hash).length = 0) then .error "Hash already registered"
  else
    let newProof : Proof :=
      { sha256Hash := sha256Hash, cid := cid, proofId := proofId,
        registrant := sender, timestamp := blockTimestamp,
        blockNumber := blockNumber, dealIds := [],
        storageProvider := storageProvider }
    .ok { proofs := assocSet s.proofs proofId newProof,
          hashToProofId := assocSet s.hashToProofId sha256Hash proofId,
          cidToProofId := assocSet s.cidToProofId cid proofId,
          totalProofs := s.totalProofs + 1,
          events := s.events ++
            [{ proofId := proofId, sha256Hash := sha256Hash, cid := cid,
               registrant := sender, timestamp := blockTimestamp,
               blockNumber := blockNumber }] }

/-- `getProofByHash` (lines 200-204). -/
def getProofByHash (s : State) (sha256Hash : Nat) : Except String Proof :=
  let proofId := hashToProofIdAt s sha256Hash
  if ¬ (proofId.length > 0) then .error "Proof not found"
  else .ok (proofsAt s proofId)

/-- `getProofByCid` (lines 211-215). -/
def getProofByCid (s : State) (cid : String) : Except String Proof :=
  let proofId := cidToProofIdAt s cid
  if ¬ (proofId.length > 0) then .error "Proof not found"
  else .ok (proofsAt s proofId)

end Reg

namespace Sim

/-- A proof record stored by `SimulatedBlockchain.registerProof`
(`wagmiConfig.js` lines 185-192).  The hash here is the hex string the
caller supplied, kept verbatim. -/
structure Proof where
  proofId : String
  sha256Hash : String
  cid : String
  registrant : String
  timestamp : Nat
  blockNumber : Nat
deriving DecidableEq, Repr

/-- A transaction entry pushed by `registerProof` (lines 197-203). -/
structure Tx where
  hash : String
  type : String
  proofId : String
  blockNumber : Nat
  timestamp : Nat
deriving DecidableEq, Repr

/-- The mutable fields of `SimulatedBlockchain` that `registerProof`
touches (lines 111-120): `this.proofs` is a JS `Map` (association list),
`this.blockNumber` and `this.timestamp` the block counter and clock. -/
structure State where
  blockNumber : Nat
  timestamp : Nat
  proofs : List (String × Proof)
  transactions : List Tx
deriving DecidableEq, Repr

def initialState : State :=
  { blockNumber := 1, timestamp := 0, proofs := [], transactions := [] }

/-- Return value of a successful `registerProof` (lines 207-211). -/
structure RegisterResult where
  hash : String
  blockNumber : Nat
  proof : Proof
deriving DecidableEq, Repr

/-- `SimulatedBlockchain.registerProof` (`wagmiConfig.js` lines 170-212).
The artificial 1.5-3.5 s confirmation delay is dropped (pure timing), the
random transaction hash is the parameter `txHash`, and `mineBlock`'s
`Date.now()` is the parameter `now`.  Note the two guards: duplicate
`proofId` (line 174) and case-insensitive duplicate hash (lines 178-183);
there is no empty-input validation. -/
def registerProof (s : State) (txHash : String) (now : Nat)
    (proofId sha256Hash cid : String) : Except String (RegisterResult × State) :=
  if s.proofs.any (fun p => p.1 == proofId) then
    .error "Proof ID already exists"
  else
    let hashKey := sha256Hash.jsToLower
    if s.proofs.any (fun p => p.2.sha256Hash.jsToLower == hashKey) then
      .error "Hash already registered"
    else
      let proof : Proof :=
        { proofId := proofId, sha256Hash := sha256Hash, cid := cid,
          registrant := "0xSimulated1234567890abcdef1234567890abcdef",
          timestamp := s.timestamp, blockNumber := s.blockNumber }
      let tx : Tx :=
        { hash := txHash, type := "registerProof", proofId := proofId,
          blockNumber := s.blockNumber, timestamp := s.timestamp }
      -- proofs.set, transactions.push, then mineBlock (blockNumber++,
      -- timestamp refreshed); the return reads the post-mine counter - 1.
      let s' : State :=
        { blockNumber := s.blockNumber + 1, timestamp := now,
          proofs := assocSet s.proofs proofId proof,
          transactions := s.transactions ++ [tx] }
      .ok ({ hash := txHash, blockNumber := s'.blockNumber - 1, proof := proof }, s')

/-- `SimulatedBlockchain.getProofByHash` (lines 218-226): first stored
proof whose hash matches case-insensitively. -/
def getProofByHash (s : State) (sha256Hash : String) : Option Proof :=
  let hashKey := sha256Hash.jsToLower
  ((s.proofs.find? (fun p => p.2.sha256Hash.jsToLower == hashKey)).map (·.2))

end Sim

namespace Gw

/-- One entry of the `GATEWAYS` list (`webhooks.js` gateway module,
lines 402-445 of the concatenated file). -/
structure GatewayInfo where
  id : String
  name : String
  url : String
  priority : Nat
  type : String
deriving DecidableEq, Repr

/-- The static, priority-ordered gateway list `GATEWAYS`. -/
def GATEWAYS : List GatewayInfo :=
  [ { id := "w3s", name := "Web3.Storage", url := "https://w3s.link/ipfs/",
      priority := 1, type := "primary" },
    { id := "dweb", name := "Dweb.link", url := "https://dweb.link/ipfs/",
      priority := 2, type := "primary" },
    { id := "ipfs-io", name := "IPFS.io", url := "https://ipfs.io/ipfs/",
      priority := 3, type := "public" },
    { id := "cloudflare", name := "Cloudflare", url := "https://cloudflare-ipfs.com/ipfs/",
      priority := 4, type := "public" },
    { id := "pinata", name := "Pinata", url := "https://gateway.pinata.cloud/ipfs/",
      priority := 5, type := "public" },
    { id := "nftstorage", name := "NFT.Storage", url := "https://nftstorage.link/ipfs/",
      priority := 6, type := "public" } ]

/-- Health status produced by `checkGatewayHealth`: `healthy`,
`latency` (null on failure), `error` (null on success).  The
`lastChecked` ISO string carries no ranking information and is dropped. -/
structure GatewayHealth where
  healthy : Bool
  latency : Option Nat
  error : Option String
deriving DecidableEq, Repr

/-- The object `{ ...gateway, health }` built inside
`getGatewaysWithHealth` (line 508). -/
structure GatewayWithHealth extends GatewayInfo where
  health : GatewayHealth
deriving DecidableEq, Repr

/-- The expression `(x.health.latency || 9999)` of the sort comparator
(line 517): JS `||` replaces every falsy value, so both `null` and `0`
become `9999`. -/
def effLatency (g : GatewayWithHealth) : Nat :=
  match g.health.latency with
  | some n => if n = 0 then 9999 else n
  | none => 9999

/-- The sort comparator of `getGatewaysWithHealth` (lines 513-520),
returning the signed number the JS function returns. -/
def sortCmp (a b : GatewayWithHealth) : Int :=
  if a.health.healthy ∧ ¬ b.health.healthy then -1
  else if ¬ a.health.healthy ∧ b.health.healthy then 1
  else if a.health.healthy ∧ b.health.healthy then
    (effLatency a : Int) - (effLatency b : Int)
  else
    (a.priority : Int) - (b.priority : Int)

/-- The ordering induced by the comparator: `a` may be placed before `b`
exactly when the comparator does not require the opposite order. -/
def gatewayLE (a b : GatewayWithHealth) : Prop := sortCmp a b ≤ 0

instance : DecidableRel gatewayLE := fun a b => Int.decLe _ _

/-- Numeric sort keys equivalent to the comparator: the primary key puts
healthy gateways (0) before unhealthy ones (1), the secondary key is the
effective latency for healthy gateways and the configured priority for
unhealthy ones. -/
def sortKey1 (g : GatewayWithHealth) : Nat := if g.health.healthy then 0 else 1

def sortKey2 (g : GatewayWithHealth) : Nat :=
  if g.health.healthy then effLatency g else g.priority

instance : IsTotal GatewayWithHealth gatewayLE :=
  ⟨by
    intro a b
    unfold gatewayLE sortCmp
    by_cases ha : a.health.healthy <;> by_cases hb : b.health.healthy <;>
      simp [ha, hb] <;> omega⟩

instance : IsTrans GatewayWithHealth gatewayLE :=
  ⟨by
    intro a b c hab hbc
    unfold gatewayLE sortCmp at hab hbc ⊢
    by_cases ha : a.health.healthy <;> by_cases hb : b.health.healthy <;>
      by_cases hc : c.health.healthy <;>
      simp [ha, hb, hc] at hab hbc ⊢ <;> omega⟩

/-- `getGatewaysWithHealth` (lines 504-521) with the per-gateway network
probe `checkGatewayHealth` abstracted as the assignment `ch`.  JS
`Array.prototype.sort` is required to produce a stable array sorted
against the comparator, which is exactly `List.insertionSort` over
`gatewayLE`. -/
def getGatewaysWithHealth (ch : GatewayInfo → GatewayHealth) : List GatewayWithHealth :=
  List.insertionSort gatewayLE (GATEWAYS.map (fun g => { toGatewayInfo := g, health := ch g }))

/-- Outcome of one `fetch` attempt inside `fetchWithFailover`:
a response with `response.ok` true carrying the payload, a response with
`response.ok` false (no exception), or a thrown error (network failure
or the abort-controller timeout). -/
inductive FetchOutcome where
  | ok (payload : String)
  | notOk
  | thrown (msg : String)
deriving DecidableEq, Repr

/-- The value thrown when every gateway attempt has failed (line 573):
`lastError` itself when one was recorded, otherwise a fresh
`Error('All gateways failed')`. -/
inductive FailoverError where
  | thrown (msg : String)
  | allGatewaysFailed
deriving DecidableEq, Repr

/-- The success value of `fetchWithFailover` (lines 561-565). -/
structure FetchSuccess where
  payload : String
  gateway : String
  url : String
deriving DecidableEq, Repr

/-- The retry loop of `fetchWithFailover` (lines 549-571).  `lastError`
and the sequence of `console.warn` records (gateway name, error message)
are threaded explicitly; a `.notOk` response neither records a warning
nor updates `lastError`. -/
def tryGateways (cid : String) (att : GatewayWithHealth → FetchOutcome) :
    List GatewayWithHealth → Option String → List (String × String) →
    Except FailoverError FetchSuccess × List (String × String)
  | [], lastError, trace =>
    (.error (match lastError with
             | some m => .thrown m
             | none => .allGatewaysFailed), trace)
  | g :: rest, lastError, trace =>
    match att g with
    | .ok payload => (.ok { payload := payload, gateway := g.name, url := g.url ++ cid }, trace)
    | .notOk => tryGateways cid att rest lastError trace
    | .thrown m => tryGateways cid att rest (some m) (trace ++ [(g.name, m)])

/-- The candidate order of `fetchWithFailover` (lines 543-545): all
healthy gateways in ranked order, or the first three ranked gateways if
none is healthy. -/
def failoverCandidates (ch : GatewayInfo → GatewayHealth) : List GatewayWithHealth :=
  let gateways := getGatewaysWithHealth ch
  let healthyGateways := gateways.filter (fun g => g.health.healthy)
  if healthyGateways.length > 0 then healthyGateways else gateways.take 3

/-- `fetchWithFailover` (lines 542-574) with the network abstracted as
the per-gateway outcome `att`. -/
def fetchWithFailover (ch : GatewayInfo → GatewayHealth) (cid : String)
    (att : GatewayWithHealth → FetchOutcome) :
    Except FailoverError FetchSuccess × List (String × String) :=
  tryGateways cid att (failoverCandidates ch) none []

/-- The thrown-error records the loop accumulates for a candidate list:
one `(gateway name, message)` pair per attempt that threw. -/
def thrownTrace (att : GatewayWithHealth → FetchOutcome)
    (l : List GatewayWithHealth) : List (String × String) :=
  l.filterMap (fun g => match att g with
    | .thrown m => some (g.name, m)
    | _ => none)

/-- The messages of attempts that threw, in order. -/
def thrownMsgs (att : GatewayWithHealth → FetchOutcome)
    (l : List GatewayWithHealth) : List String :=
  l.filterMap (fun g => match att g with
    | .thrown m => some m
    | _ => none)

end Gw

namespace Deals

/-- `DEAL_CACHE_TTL` (`filecoinDeals.js` line 7): five minutes in
milliseconds. -/
def DEAL_CACHE_TTL : Nat := 5 * 60 * 1000

/-- One deal record as produced by `parseW3SResponse` or
`simulateDealInfo`.  Instants (`activation`, `expiration`, `created`)
are epoch milliseconds (see the file header). -/
structure Deal where
  dealId : String
  provider : String
  status : String
  pieceCid : String
  activation : Nat
  expiration : Nat
  created : Nat
deriving DecidableEq, Repr

/-- The deal-information object returned by `getDealInfo` and cached per
CID: rolled-up `status`, the deal list, and the bookkeeping flags the
source attaches (`pinned`, `simulated`, `message`, `error`). -/
structure DealView where
  status : String
  deals : List Deal
  pinned : Bool := false
  simulated : Bool := false
  message : Option String := none
  error : Option String := none
deriving DecidableEq, Repr

/-- One deal of a Web3.Storage status response. -/
structure W3SDeal where
  dealId : String
  storageProvider : String
  status : String
  pieceCid : String
  dataCid : String
  dealActivation : Nat
  dealExpiration : Nat
  created : Nat
deriving DecidableEq, Repr

/-- A parsed Web3.Storage status response body. -/
structure W3SData where
  deals : List W3SDeal
  pins : List String
deriving DecidableEq, Repr

/-- `mapDealStatus` (lines 135-151). -/
def mapDealStatus (status : String) : String :=
  let s := status.jsToLower
  if s = "active" ∨ s = "activedeal" then "active"
  else if s = "pending" ∨ s = "published" ∨ s = "queued" then "pending"
  else if s = "expired" then "expired"
  else if s = "slashed" then "slashed"
  else "unknown"

/-- `parseW3SResponse` (lines 106-130). -/
def parseW3SResponse (data : W3SData) : DealView :=
  let deals := data.deals.map (fun deal =>
    { dealId := deal.dealId, provider := deal.storageProvider,
      status := mapDealStatus deal.status, pieceCid := deal.pieceCid,
      activation := deal.dealActivation, expiration := deal.dealExpiration,
      created := deal.created : Deal })
  let hasActiveDeals := deals.any (fun d => d.status == "active")
  let hasPendingDeals := deals.any (fun d => d.status == "pending")
  { status := if hasActiveDeals then "active"
              else if hasPendingDeals then "pending"
              else if deals.length > 0 then "expired" else "unknown",
    deals := deals,
    pinned := data.pins.length > 0 }

/-- Sum of the UTF-16 code units of the CID (`simulateDealInfo` line 158:
`cid.split('').reduce((a, b) => a + b.charCodeAt(0), 0)`); for the
basic-plane strings CIDs are, this is the sum of the code points. -/
def charSum (cid : String) : Nat := (cid.data.map Char.toNat).sum

/-- `simulateDealInfo` (lines 156-190): the deterministic demo fallback.
`now` is `Date.now()` in epoch milliseconds. -/
def simulateDealInfo (cid : String) (now : Nat) : DealView :=
  let hash := charSum cid
  if hash % 3 = 0 then
    { status := "pending", deals := [], simulated := true,
      message := some "Deal aggregation in progress" }
  else
    let providers := ["f01234", "f05678", "f09012"]
    let dayMs := 24 * 60 * 60 * 1000
    let deals := (providers.take ((hash % 3) + 1)).enum.map (fun ip =>
      let i := ip.1
      let provider := ip.2
      { dealId := toString (1000000 + (hash * (i + 1)) % 999999),
        provider := provider,
        status := "active",
        pieceCid := "baga6ea4seaq" ++ String.mk (cid.data.drop (cid.length - 32)),
        activation := now - (30 + i * 10) * dayMs,
        expiration := now + (180 - i * 30) * dayMs,
        created := now - (35 + i * 10) * dayMs : Deal })
    { status := "active", deals := deals, pinned := true, simulated := true }

/-- Outcome of the `fetch` to `api.web3.storage/status/cid` inside
`fetchDealFromW3S`: a successful parse of the JSON body, a non-ok
response with its HTTP status, or a thrown network error. -/
inductive W3SOutcome where
  | success (data : W3SData)
  | httpFail (status : Nat)
  | netError (msg : String)
deriving DecidableEq, Repr

/-- `fetchDealFromW3S` (lines 78-101): a 404 yields `not_found` with no
deals; every other failure (non-ok status, thrown error) is caught by
the surrounding try/catch and falls back to `simulateDealInfo`. -/
def fetchDealFromW3S (cid : String) (now : Nat) (outcome : W3SOutcome) : DealView :=
  match outcome with
  | .success data => parseW3SResponse data
  | .httpFail status =>
    if status = 404 then { status := "not_found", deals := [] }
    else simulateDealInfo cid now
  | .netError _ => simulateDealInfo cid now

/-- One entry of the `localStorage` deal cache (`cacheDeal` lines
225-228). -/
structure CacheEntry where
  data : DealView
  timestamp : Nat
deriving DecidableEq, Repr

/-- The deal cache object keyed by CID. -/
abbrev Cache : Type := List (String × CacheEntry)

/-- `getCachedDeal` (lines 195-208): a hit requires the entry to be
younger than the TTL. -/
def getCachedDeal (cache : Cache) (now : Nat) (cid : String) : Option DealView :=
  match assocGet cache cid with
  | some entry => if now - entry.timestamp < DEAL_CACHE_TTL then some entry.data else none
  | none => none

/-- `cacheDeal` (lines 213-234): entries older than twice the TTL are
deleted, then the new entry is written with the current time. -/
def cacheDeal (cache : Cache) (now : Nat) (cid : String) (data : DealView) : Cache :=
  let cleaned := cache.filter (fun p => ¬ (now - p.2.timestamp > DEAL_CACHE_TTL * 2))
  assocSet cleaned cid { data := data, timestamp := now }

/-- `getDealInfo` (lines 46-73) with the network abstracted as `outcome`.
Returns the deal view, the cache after the call, and whether an external
query was issued.  `fetchDealFromW3S` never rejects (it catches its own
errors), so the `catch` branch of `getDealInfo` is unreachable and not
modelled. -/
def getDealInfo (cache : Cache) (now : Nat) (cid : String) (outcome : W3SOutcome) :
    DealView × Cache × Bool :=
  if cid = "" then ({ status := "not_found", deals := [] }, cache, false)
  else
    match getCachedDeal cache now cid with
    | some cached => (cached, cache, false)
    | none =>
      let dealInfo := fetchDealFromW3S cid now outcome
      (dealInfo, cacheDeal cache now cid dealInfo, true)

/-- Result of `getDealHealthScore` (lines 336-356). -/
structure HealthScore where
  score : Nat
  label : String
  color : String
deriving DecidableEq, Repr

/-- The `(dealInfo.deals || []).filter(d => d.status === ACTIVE).length`
count of `getDealHealthScore`. -/
def activeDealCount (dealInfo : DealView) : Nat :=
  (dealInfo.deals.filter (fun d => d.status == "active")).length

/-- `getDealHealthScore` (lines 336-356); `none` models a null
`dealInfo` argument. -/
def getDealHealthScore (dealInfo : Option DealView) : HealthScore :=
  match dealInfo with
  | none => { score := 0, label := "No Data", color := "gray" }
  | some di =>
    if di.status = "not_found" then { score := 0, label := "No Data", color := "gray" }
    else
      let activeCount := activeDealCount di
      if activeCount ≥ 3 then { score := 100, label := "Excellent", color := "green" }
      else if activeCount ≥ 2 then { score := 80, label := "Good", color := "green" }
      else if activeCount = 1 then { score := 60, label := "Fair", color := "yellow" }
      else if di.status = "pending" then { score := 40, label := "Pending", color := "yellow" }
      else { score := 20, label := "At Risk", color := "red" }

end Deals

namespace Wh

/-- A webhook record as created by `createWebhook` (`webhooks.js` lines
89-100).  `secret` and `lastTriggered` may be JS `null`. -/
structure Webhook where
  id : String
  name : String
  url : String
  events : List String
  secret : Option String
  enabled : Bool
  createdAt : String
  lastTriggered : Option String
  successCount : Nat
  failCount : Nat
deriving DecidableEq, Repr

/-- The `updates` object of `updateWebhook`: for each of the five
allowed keys, `none` models an absent (`undefined`) property and
`some v` a present one (the guard on line 127 is `!== undefined`). -/
structure Updates where
  name : Option String := none
  url : Option String := none
  events : Option (List String) := none
  secret : Option (Option String) := none
  enabled : Option Bool := none
deriving DecidableEq, Repr

/-- The per-key copy loop of `updateWebhook` (lines 123-130): each of
the five allowed fields is overwritten exactly when the update object
carries it; every other field of the record is untouched. -/
def applyUpdates (w : Webhook) (u : Updates) : Webhook :=
  { w with
    name := u.name.getD w.name,
    url := u.url.getD w.url,
    events := u.events.getD w.events,
    secret := u.secret.getD w.secret,
    enabled := u.enabled.getD w.enabled }

/-- `updateWebhook` (lines 115-136): `findIndex` locates the first
record with the given id, the not-found case throws before any write,
and the matched record is replaced by its updated copy in place.  The
returned pair is (updated record, stored list after `saveWebhooks`). -/
def updateWebhook : List Webhook → String → Updates →
    Except String (Webhook × List Webhook)
  | [], _, _ => .error "Webhook not found"
  | w :: ws, id, u =>
    if w.id = id then
      let w' := applyUpdates w u
      .ok (w', w' :: ws)
    else
      match updateWebhook ws id u with
      | .error e => .error e
      | .ok (w', ws') => .ok (w', w :: ws')

end Wh

namespace Api

/-- A stored proof record as the API service reads it; only the fields
`verifyProof` touches are modelled. -/
structure Proof where
  proofId : String
  sha256Hash : String
deriving DecidableEq, Repr

/-- Modelled from the spec: `getProofById` lives in `proofStorage.js`,
which is not among the provided sources; the spec describes the
persisted proof store as a registry offering "lookups by id", so it is
modelled as the first stored record carrying the requested id. -/
def getProofById (store : List Proof) (proofId : String) : Option Proof :=
  (store.find? (fun p => p.proofId == proofId)).map id

/-- Result of `verifyProof` (`unnamed/part_003` lines 106-155): the
fields of the returned object that carry verification information. -/
structure VerifyResult where
  success : Bool
  verified : Bool
  providedHash : Option String
  expectedHash : Option String
  error : Option String
deriving DecidableEq, Repr

/-- `verifyProof` (`unnamed/part_003` lines 106-155) with the SHA-256
digest of the supplied file abstracted as the hex string `fileHash`
(the source computes it with `hashBuffer`, line 128).  The comparison on
line 129 is exact string equality (`===`).  The function only reads the
proof store, so the store is returned unchanged. -/
def verifyProof (store : List Proof) (proofId : String) (fileHash : String) :
    VerifyResult × List Proof :=
  match getProofById store proofId with
  | none =>
    ({ success := false, verified := false, providedHash := none,
       expectedHash := none, error := some "Proof not found" }, store)
  | some proof =>
    let isMatch := fileHash = proof.sha256Hash
    ({ success := true, verified := isMatch, providedHash := some fileHash,
       expectedHash := some proof.sha256Hash, error := none }, store)

end Api

/-!
## Helper lemmas
-/

theorem find_assocSet_map {α β : Type} [DecidableEq α]
    (l : List (α × β)) (k : α) (v : β)
    (h : l.any (fun p => p.1 == k) = true) :
    (l.map (fun p => if p.1 = k then (k, v) else p)).find?
      (fun p => p.1 == k) = some (k, v) := by
  induction l with
  | nil => simp at h
  | cons hd tl ih =>
    by_cases hk : hd.1 = k
    · rw [List.map_cons, if_pos hk, List.find?_cons_of_pos]
      simp
    · rw [List.map_cons, if_neg hk, List.find?_cons_of_neg]
      · exact ih (by simpa [List.any_cons, hk] using h)
      · simp [hk]

theorem find_assocSet_append {α β : Type} [DecidableEq α]
    (l : List (α × β)) (k : α) (v : β)
    (h : l.any (fun p => p.1 == k) = false) :
    (l ++ [(k, v)]).find? (fun p => p.1 == k) = some (k, v) := by
  induction l with
  | nil => simp
  | cons hd tl ih =>
    have hk : ¬ hd.1 = k := by
      intro hc
      simp [List.any_cons, hc] at h
    rw [List.cons_append, List.find?_cons_of_neg]
    · exact ih (by simpa [List.any_cons, hk] using h)
    · simp [hk]

theorem assocGet_assocSet_self {α β : Type} [DecidableEq α]
    (l : List (α × β)) (k : α) (v : β) :
    assocGet (assocSet l k v) k = some v := by
  unfold assocGet assocSet
  by_cases h : l.any (fun p => p.1 == k)
  · rw [if_pos h, find_assocSet_map l k v h]
    rfl
  · simp only [Bool.not_eq_true] at h
    rw [if_neg (by simp [h]), find_assocSet_append l k v h]
    rfl

theorem mem_assocSet {α β : Type} [DecidableEq α]
    {l : List (α × β)} {k : α} {v : β} {p : α × β}
    (hp : p ∈ assocSet l k v) : p = (k, v) ∨ p ∈ l := by
  unfold assocSet at hp
  by_cases h : l.any (fun p => p.1 == k)
  · rw [if_pos h] at hp
    obtain ⟨q, hq, hqe⟩ := List.mem_map.mp hp
    by_cases hqk : q.1 = k
    · rw [if_pos hqk] at hqe
      exact Or.inl hqe.symm
    · rw [if_neg hqk] at hqe
      exact Or.inr (hqe ▸ hq)
  · rw [if_neg h] at hp
    rcases List.mem_append.mp hp with hl | hr
    · exact Or.inr hl
    · exact Or.inl (by simpa using hr)

namespace Gw

theorem gatewayLE_iff (a b : GatewayWithHealth) :
    gatewayLE a b ↔
      sortKey1 a < sortKey1 b ∨ (sortKey1 a = sortKey1 b ∧ sortKey2 a ≤ sortKey2 b) := by
  unfold gatewayLE sortCmp sortKey1 sortKey2
  by_cases ha : a.health.healthy <;> by_cases hb : b.health.healthy <;>
    simp [ha, hb] <;> omega

end Gw

/-!
## Claims about the ledger registry (C1, C2)
-/

/-- C2: whenever `registerProof(proofId, hash, locator, provider)`
succeeds, a subsequent `getProofByHash(hash)` and `getProofByCid(locator)`
each return exactly the record that was registered (same proofId, hash
and locator), `totalProofs` is incremented by one, and a
`ProofRegistered` event is emitted. -/
theorem registerProof_roundtrip (s : Reg.State) (sender : String)
    (bt bn : Nat) (pid : String) (h : Nat) (cid sp : String) (s' : Reg.State)
    (hreg : Reg.registerProof s sender bt bn pid h cid sp = .ok s') :
    Reg.getProofByHash s' h =
      .ok { sha256Hash := h, cid := cid, proofId := pid, registrant := sender,
            timestamp := bt, blockNumber := bn, dealIds := [], storageProvider := sp } ∧
    Reg.getProofByCid s' cid =
      .ok { sha256Hash := h, cid := cid, proofId := pid, registrant := sender,
            timestamp := bt, blockNumber := bn, dealIds := [], storageProvider := sp } ∧
    s'.totalProofs = s.totalProofs + 1 ∧
    s'.events = s.events ++
      [{ proofId := pid, sha256Hash := h, cid := cid, registrant := sender,
         timestamp := bt, blockNumber := bn }] := by
  unfold Reg.registerProof at hreg
  split_ifs at hreg with h1 h2 h3 h4 h5
  all_goals try exact Except.noConfusion hreg
  injection hreg with h6
  subst h6
  refine ⟨?_, ?_, rfl, rfl⟩
  · unfold Reg.getProofByHash Reg.hashToProofIdAt Reg.proofsAt
    simp only [assocGet_assocSet_self, Option.getD_some]
    rw [if_neg (not_not_intro h1)]
  · unfold Reg.getProofByCid Reg.cidToProofIdAt Reg.proofsAt
    simp only [assocGet_assocSet_self, Option.getD_some]
    rw [if_neg (not_not_intro h1)]

/-- Concrete state used to witness the registry claims: the result of
one successful registration on the empty registry. -/
def c2State : Reg.State :=
  match Reg.registerProof Reg.emptyState "0xalice" 100 7 "p1" 5 "QmX" "w3s" with
  | .ok s => s
  | .error _ => Reg.emptyState

theorem registerProof_roundtrip_witness :
    Reg.getProofByHash c2State 5 =
      .ok { sha256Hash := 5, cid := "QmX", proofId := "p1", registrant := "0xalice",
            timestamp := 100, blockNumber := 7, dealIds := [], storageProvider := "w3s" } ∧
    Reg.getProofByCid c2State "QmX" =
      .ok { sha256Hash := 5, cid := "QmX", proofId := "p1", registrant := "0xalice",
            timestamp := 100, blockNumber := 7, dealIds := [], storageProvider := "w3s" } ∧
    c2State.totalProofs = Reg.emptyState.totalProofs + 1 ∧
    c2State.events = Reg.emptyState.events ++
      [{ proofId := "p1", sha256Hash := 5, cid := "QmX", registrant := "0xalice",
         timestamp := 100, blockNumber := 7 }] :=
  registerProof_roundtrip Reg.emptyState "0xalice" 100 7 "p1" 5 "QmX" "w3s" c2State rfl

/-- C1 (amended): registering with an already-bound hash fails with
"Hash already registered" regardless of the locator, so at most one
proof exists per `sha256Hash`; registering with an already-bound
locator, however, is not rejected: whenever the other guards pass the
call succeeds for an arbitrary (in particular already-bound) locator and
`cidToProofId` is silently rebound to the new proof, so per-locator
uniqueness is not enforced. -/
theorem registerProof_hash_unique_cid_rebinds (s : Reg.State) (sender : String)
    (bt bn : Nat) (pid : String) (h : Nat) (cid sp : String)
    (hpid : pid.length > 0) (hh : h ≠ 0) (hcid : cid.length > 0)
    (hfresh : (Reg.proofsAt s pid).timestamp = 0) :
    ((Reg.hashToProofIdAt s h).length ≠ 0 →
      Reg.registerProof s sender bt bn pid h cid sp = .error "Hash already registered") ∧
    ((Reg.hashToProofIdAt s h).length = 0 →
      match Reg.registerProof s sender bt bn pid h cid sp with
      | .ok s' => Reg.cidToProofIdAt s' cid = pid
      | .error _ => False) := by
  unfold Reg.registerProof
  rw [if_neg (not_not_intro hpid), if_neg (not_not_intro hh),
      if_neg (not_not_intro hcid), if_neg (not_not_intro hfresh)]
  constructor
  · intro hbound
    rw [if_pos hbound]
  · intro hfree
    rw [if_neg (not_not_intro hfree)]
    unfold Reg.cidToProofIdAt
    simp only [assocGet_assocSet_self, Option.getD_some]

/-- Concrete registry holding one proof with hash 5 and locator "QmX",
used to witness the amended C1 claim. -/
def c1State : Reg.State :=
  match Reg.registerProof Reg.emptyState "0xalice" 100 7 "p1" 5 "QmX" "w3s" with
  | .ok s => s
  | .error _ => Reg.emptyState

theorem registerProof_hash_unique_cid_rebinds_witness :
    (Reg.registerProof c1State "0xbob" 200 8 "p2" 5 "QmOther" "w3s" =
      .error "Hash already registered") ∧
    (match Reg.registerProof c1State "0xbob" 200 8 "p2" 9 "QmX" "w3s" with
     | .ok s' => Reg.cidToProofIdAt s' "QmX" = "p2"
     | .error _ => False) :=
  ⟨(registerProof_hash_unique_cid_rebinds c1State "0xbob" 200 8 "p2" 5 "QmOther" "w3s"
      (by decide) (by decide) (by decide) (by decide)).1 (by decide),
   (registerProof_hash_unique_cid_rebinds c1State "0xbob" 200 8 "p2" 9 "QmX" "w3s"
      (by decide) (by decide) (by decide) (by decide)).2 (by decide)⟩

/-- C1 (counterexample): on the registry that already holds proof "p1"
with locator "QmX", registering a second proof "p2" with a fresh hash
but the very same locator "QmX" succeeds — the claim that it fails with
a duplicate error is false — and the locator index afterwards points at
"p2". -/
theorem registerProof_duplicate_cid_accepted :
    (Reg.registerProof c1State "0xbob" 200 8 "p2" 9 "QmX" "w3s").isOk = true ∧
    (Reg.registerProof c1State "0xbob" 200 8 "p2" 9 "QmX" "w3s").toOption.map
      (fun s2 => Reg.cidToProofIdAt s2 "QmX") = some "p2" := by
  constructor
  · rfl
  · rfl

/-!
## Claim about the simulated registry (C3)
-/

/-- C3 (amended): the simulated registry enforces exactly the
contract's two duplicate guards — a duplicate `proofId` fails with
"Proof ID already exists", and, that guard passing, a (case-insensitive)
duplicate hash fails with "Hash already registered" — and with both
guards passing it always succeeds; in particular it performs no
empty/zero-input validation, whereas the ledger contract additionally
rejects empty or zero `proofId`, hash and locator with its
invalid-input reverts. -/
theorem sim_registerProof_matches_contract_guards
    (sSim : Sim.State) (tx : String) (now : Nat) (pidS hashS cidS : String)
    (sReg : Reg.State) (sender : String) (bt bn : Nat)
    (pidR : String) (hR : Nat) (cidR spR : String) :
    (sSim.proofs.any (fun p => p.1 == pidS) = true →
      Sim.registerProof sSim tx now pidS hashS cidS = .error "Proof ID already exists") ∧
    (sSim.proofs.any (fun p => p.1 == pidS) = false →
     sSim.proofs.any (fun p => p.2.sha256Hash.jsToLower == hashS.jsToLower) = true →
      Sim.registerProof sSim tx now pidS hashS cidS = .error "Hash already registered") ∧
    (sSim.proofs.any (fun p => p.1 == pidS) = false →
     sSim.proofs.any (fun p => p.2.sha256Hash.jsToLower == hashS.jsToLower) = false →
      (Sim.registerProof sSim tx now pidS hashS cidS).isOk = true) ∧
    (pidR.length > 0 → hR ≠ 0 → cidR.length > 0 →
     (Reg.proofsAt sReg pidR).timestamp ≠ 0 →
      Reg.registerProof sReg sender bt bn pidR hR cidR spR = .error "Proof ID already exists") ∧
    (pidR.length > 0 → hR ≠ 0 → cidR.length > 0 →
     (Reg.proofsAt sReg pidR).timestamp = 0 →
     (Reg.hashToProofIdAt sReg hR).length ≠ 0 →
      Reg.registerProof sReg sender bt bn pidR hR cidR spR = .error "Hash already registered") ∧
    (pidR.length = 0 →
      Reg.registerProof sReg sender bt bn pidR hR cidR spR = .error "Invalid proof ID") := by
  refine ⟨?_, ?_, ?_, ?_, ?_, ?_⟩
  · intro hdup
    simp only [Sim.registerProof, hdup, if_true]
  · intro hfree hdup
    simp only [Sim.registerProof, hfree, Bool.false_eq_true, if_false, hdup, if_true]
  · intro hfree hfree2
    simp only [Sim.registerProof, hfree, hfree2, Bool.false_eq_true, if_false]
    rfl
  · intro hp hh hc hdup
    unfold Reg.registerProof
    rw [if_neg (not_not_intro hp), if_neg (not_not_intro hh),
        if_neg (not_not_intro hc), if_pos hdup]
  · intro hp hh hc hfresh hbound
    unfold Reg.registerProof
    rw [if_neg (not_not_intro hp), if_neg (not_not_intro hh),
        if_neg (not_not_intro hc), if_neg (not_not_intro hfresh), if_pos hbound]
  · intro hp
    unfold Reg.registerProof
    rw [if_pos (by omega)]

/-- Simulated-chain state holding one proof "p1" with hash "AA", used to
witness the amended C3 claim. -/
def c3SimState : Sim.State :=
  match Sim.registerProof Sim.initialState "0xt1" 50 "p1" "AA" "QmX" with
  | .ok r => r.2
  | .error _ => Sim.initialState

theorem sim_registerProof_matches_contract_guards_witness :
    (Sim.registerProof c3SimState "0xt2" 60 "p1" "bb" "QmY" =
      .error "Proof ID already exists") ∧
    (Sim.registerProof c3SimState "0xt2" 60 "p2" "aa" "QmY" =
      .error "Hash already registered") ∧
    ((Sim.registerProof Sim.initialState "0xt" 5 "" "" "").isOk = true) ∧
    (Reg.registerProof Reg.emptyState "0xalice" 1 1 "" 5 "QmX" "sp" =
      .error "Invalid proof ID") :=
  ⟨(sim_registerProof_matches_contract_guards c3SimState "0xt2" 60 "p1" "bb" "QmY"
      Reg.emptyState "0xalice" 1 1 "p" 5 "QmX" "sp").1 (by decide),
   (sim_registerProof_matches_contract_guards c3SimState "0xt2" 60 "p2" "aa" "QmY"
      Reg.emptyState "0xalice" 1 1 "p" 5 "QmX" "sp").2.1 (by decide) (by decide),
   (sim_registerProof_matches_contract_guards Sim.initialState "0xt" 5 "" "" ""
      Reg.emptyState "0xalice" 1 1 "p" 5 "QmX" "sp").2.2.1 (by decide) (by decide),
   (sim_registerProof_matches_contract_guards Sim.initialState "0xt" 5 "" "" ""
      Reg.emptyState "0xalice" 1 1 "" 5 "QmX" "sp").2.2.2.2.2 (by decide)⟩

/-- C3 (counterexample): with a completely empty `proofId`, hash and
locator, the simulated registry's `registerProof` succeeds while the
ledger contract reverts with "Invalid proof ID" — so the two do not
fail under the same conditions. -/
theorem sim_registerProof_accepts_empty_input :
    (Sim.registerProof Sim.initialState "0xt" 5 "" "aa" "QmZ").isOk = true ∧
    Reg.registerProof Reg.emptyState "0xalice" 1 1 "" 5 "QmZ" "sp" =
      .error "Invalid proof ID" := by
  exact ⟨rfl, rfl⟩

/-!
## Claim about API verification (C5)
-/

/-- C5 (amended): `verifyProof(id, h)` succeeds with `verified = true`
exactly when a proof with identifier `id` exists and `h` equals its
stored hash under exact string comparison (the source compares with
`===`, not case-insensitively); for an unknown `id` it reports failure
with `verified = false`; and the proof store is never mutated. -/
theorem verifyProof_exact_comparison (store : List Api.Proof) (pid fileHash : String) :
    (match Api.getProofById store pid with
     | some proof =>
       (Api.verifyProof store pid fileHash).1.success = true ∧
       ((Api.verifyProof store pid fileHash).1.verified = true ↔
         fileHash = proof.sha256Hash)
     | none =>
       (Api.verifyProof store pid fileHash).1.success = false ∧
       (Api.verifyProof store pid fileHash).1.verified = false) ∧
    (Api.verifyProof store pid fileHash).2 = store := by
  cases hq : Api.getProofById store pid with
  | none =>
    refine ⟨⟨?_, ?_⟩, ?_⟩ <;> simp [Api.verifyProof, hq]
  | some proof =>
    refine ⟨⟨?_, ?_⟩, ?_⟩ <;> simp [Api.verifyProof, hq]

/-- C5 (counterexample): a stored hash "abc" and a supplied hash "ABC"
are equal under case-insensitive comparison, yet `verifyProof` reports
`verified = false` — the comparison in the code is exact, not
case-insensitive. -/
theorem verifyProof_not_case_insensitive :
    (Api.verifyProof [{ proofId := "p1", sha256Hash := "abc" }] "p1" "ABC").1.verified
      = false ∧
    "ABC".jsToLower = "abc".jsToLower := by
  exact ⟨rfl, rfl⟩

/-!
## Claim about the deal health score (C6)
-/

/-- C6: `getDealHealthScore` is a pure function of the summary's status
and active-deal count, and follows the fixed step scale: for a summary
whose status is `not_found` it yields 0/"No Data"; otherwise at least 3
active deals yield 100/"Excellent", exactly 2 yield 80/"Good", exactly 1
yields 60/"Fair", zero active deals with status `pending` yield
40/"Pending", and zero active deals with any other status yield
20/"At Risk". -/
theorem getDealHealthScore_step_function (di : Deals.DealView) :
    (di.status = "not_found" →
      Deals.getDealHealthScore (some di) =
        { score := 0, label := "No Data", color := "gray" }) ∧
    (di.status ≠ "not_found" →
      (Deals.activeDealCount di ≥ 3 →
        Deals.getDealHealthScore (some di) =
          { score := 100, label := "Excellent", color := "green" }) ∧
      (Deals.activeDealCount di = 2 →
        Deals.getDealHealthScore (some di) =
          { score := 80, label := "Good", color := "green" }) ∧
      (Deals.activeDealCount di = 1 →
        Deals.getDealHealthScore (some di) =
          { score := 60, label := "Fair", color := "yellow" }) ∧
      (Deals.activeDealCount di = 0 → di.status = "pending" →
        Deals.getDealHealthScore (some di) =
          { score := 40, label := "Pending", color := "yellow" }) ∧
      (Deals.activeDealCount di = 0 → di.status ≠ "pending" →
        Deals.getDealHealthScore (some di) =
          { score := 20, label := "At Risk", color := "red" })) ∧
    (∀ dj : Deals.DealView, di.status = dj.status →
      Deals.activeDealCount di = Deals.activeDealCount dj →
      Deals.getDealHealthScore (some di) = Deals.getDealHealthScore (some dj)) := by
  refine ⟨?_, ?_, ?_⟩
  · intro h
    simp [Deals.getDealHealthScore, h]
  · intro h
    refine ⟨?_, ?_, ?_, ?_, ?_⟩
    · intro hc
      simp only [Deals.getDealHealthScore, if_neg h, if_pos hc]
    · intro hc
      simp only [Deals.getDealHealthScore, if_neg h, hc]
      norm_num
    · intro hc
      simp only [Deals.getDealHealthScore, if_neg h, hc]
      norm_num
    · intro hc hs
      simp only [Deals.getDealHealthScore, if_neg h, hc, if_pos hs]
      norm_num
    · intro hc hs
      simp only [Deals.getDealHealthScore, if_neg h, hc, if_neg hs]
      norm_num
  · intro dj hs hc
    simp only [Deals.getDealHealthScore, hs, hc]

/-- Single active deal record used by the C6 witness. -/
def c6ActiveDeal : Deals.Deal :=
  { dealId := "1000001", provider := "f01234", status := "active",
    pieceCid := "baga", activation := 0, expiration := 0, created := 0 }

/-- Deal summaries used by the C6 witness: three active deals, a pending
summary with no deals, and a `not_found` summary. -/
def c6Active3 : Deals.DealView :=
  { status := "active", deals := [c6ActiveDeal, c6ActiveDeal, c6ActiveDeal] }

def c6Pending0 : Deals.DealView := { status := "pending", deals := [] }

def c6NotFound : Deals.DealView := { status := "not_found", deals := [] }

theorem getDealHealthScore_step_function_witness :
    Deals.getDealHealthScore (some c6Active3) =
      { score := 100, label := "Excellent", color := "green" } ∧
    Deals.getDealHealthScore (some c6Pending0) =
      { score := 40, label := "Pending", color := "yellow" } ∧
    Deals.getDealHealthScore (some c6NotFound) =
      { score := 0, label := "No Data", color := "gray" } :=
  ⟨((getDealHealthScore_step_function c6Active3).2.1 (by decide)).1 (by decide),
   (((getDealHealthScore_step_function c6Pending0).2.1 (by decide)).2.2.2.1
     (by decide) (by decide)),
   (getDealHealthScore_step_function c6NotFound).1 (by decide)⟩

/-!
## Claim about webhook updates (C10)
-/

theorem mem_zip_same {α : Type} {l : List α} {p : α × α}
    (hp : p ∈ l.zip l) : p.2 = p.1 := by
  induction l with
  | nil => cases hp
  | cons a t ih =>
    rcases List.mem_cons.mp hp with hp | hp
    · rw [hp]
    · exact ih hp

/-- C10: `updateWebhook(id, updates)` modifies at most the fields
`name`, `url`, `events`, `secret` and `enabled` of the first webhook
with the given id — its `id`, `createdAt`, `lastTriggered`,
`successCount` and `failCount` fields are preserved, as is every
webhook with a different id and the store's length — and when no stored
webhook has the given id it throws "Webhook not found" without
producing a new store. -/
theorem updateWebhook_frame (webhooks : List Wh.Webhook) (id : String) (u : Wh.Updates) :
    ((∀ w ∈ webhooks, w.id ≠ id) →
      Wh.updateWebhook webhooks id u = .error "Webhook not found") ∧
    (∀ w' ws', Wh.updateWebhook webhooks id u = .ok (w', ws') →
      ws'.length = webhooks.length ∧
      ∀ p ∈ webhooks.zip ws',
        (p.2.id = p.1.id ∧ p.2.createdAt = p.1.createdAt ∧
         p.2.lastTriggered = p.1.lastTriggered ∧
         p.2.successCount = p.1.successCount ∧ p.2.failCount = p.1.failCount) ∧
        (p.1.id ≠ id → p.2 = p.1)) := by
  induction webhooks with
  | nil =>
    exact ⟨fun _ => rfl, fun w' ws' h => Except.noConfusion h⟩
  | cons w ws ih =>
    constructor
    · intro hall
      have hw : ¬ w.id = id := hall w (List.mem_cons_self w ws)
      have hrec := ih.1 (fun x hx => hall x (List.mem_cons_of_mem w hx))
      simp only [Wh.updateWebhook, if_neg hw, hrec]
    · intro w' ws' h
      by_cases hw : w.id = id
      · simp only [Wh.updateWebhook, if_pos hw] at h
        injection h with hpair
        injection hpair with hw' hws'
        subst hws'
        refine ⟨rfl, ?_⟩
        intro p hp
        rcases List.mem_cons.mp hp with hp | hp
        · subst hp
          exact ⟨⟨rfl, rfl, rfl, rfl, rfl⟩, fun hne => absurd hw hne⟩
        · have := mem_zip_same hp
          exact ⟨by simp [this], fun _ => this⟩
      · simp only [Wh.updateWebhook, if_neg hw] at h
        cases hrec : Wh.updateWebhook ws id u with
        | error e =>
          rw [hrec] at h
          exact Except.noConfusion h
        | ok pr =>
          rw [hrec] at h
          injection h with hpair
          injection hpair with hw' hws'
          subst hws'
          obtain ⟨hlen, hmem⟩ := ih.2 pr.1 pr.2 (by rw [hrec])
          refine ⟨by simp [hlen], ?_⟩
          intro p hp
          rcases List.mem_cons.mp hp with hp | hp
          · subst hp
            exact ⟨⟨rfl, rfl, rfl, rfl, rfl⟩, fun _ => rfl⟩
          · exact hmem p hp

/-- Concrete two-webhook store used by the C10 witness. -/
def c10WebhookA : Wh.Webhook :=
  { id := "wh-1", name := "first", url := "https://a.example/hook",
    events := ["proof_created"], secret := none, enabled := true,
    createdAt := "2024-01-01", lastTriggered := none,
    successCount := 3, failCount := 1 }

def c10WebhookB : Wh.Webhook :=
  { id := "wh-2", name := "second", url := "https://b.example/hook",
    events := ["nft_minted"], secret := some "s3cret", enabled := true,
    createdAt := "2024-02-02", lastTriggered := some "2024-03-03",
    successCount := 7, failCount := 2 }

/-- Updates applied by the C10 witness: rename and disable. -/
def c10Updates : Wh.Updates := { name := some "renamed", enabled := some false }

theorem updateWebhook_frame_witness :
    (Wh.updateWebhook [c10WebhookA, c10WebhookB] "wh-2" c10Updates).isOk = true ∧
    ((Wh.updateWebhook [c10WebhookA] "wh-404" c10Updates) = .error "Webhook not found") ∧
    (∀ w' ws',
      Wh.updateWebhook [c10WebhookA, c10WebhookB] "wh-2" c10Updates = .ok (w', ws') →
      ws'.length = 2 ∧
      ∀ p ∈ [c10WebhookA, c10WebhookB].zip ws',
        (p.2.id = p.1.id ∧ p.2.createdAt = p.1.createdAt ∧
         p.2.lastTriggered = p.1.lastTriggered ∧
         p.2.successCount = p.1.successCount ∧ p.2.failCount = p.1.failCount) ∧
        (p.1.id ≠ "wh-2" → p.2 = p.1)) :=
  ⟨rfl,
   (updateWebhook_frame [c10WebhookA] "wh-404" c10Updates).1 (by decide),
   fun w' ws' h =>
     (updateWebhook_frame [c10WebhookA, c10WebhookB] "wh-2" c10Updates).2 w' ws' h⟩

/-!
## Claim about the deal-status cache (C8)
-/

/-- C8 (amended): freshness is measured from the cache entry's write
time.  When a call for a non-empty locator misses the cache, it issues
the external query and writes the result at its call time `t0`; any
second call within 5 minutes of that write returns the identical result
from the cache without querying (so the pair issues exactly one external
query); a call at or after `t0 + TTL` issues a new query; and every
cache write evicts all entries older than twice the TTL. -/
theorem getDealInfo_cache_ttl (cache : Deals.Cache) (t0 t1 : Nat) (cid : String)
    (o1 o2 : Deals.W3SOutcome)
    (hcid : cid ≠ "")
    (hmiss : Deals.getCachedDeal cache t0 cid = none) :
    (Deals.getDealInfo cache t0 cid o1 =
      (Deals.fetchDealFromW3S cid t0 o1,
       Deals.cacheDeal cache t0 cid (Deals.fetchDealFromW3S cid t0 o1), true)) ∧
    (t0 ≤ t1 → t1 < t0 + Deals.DEAL_CACHE_TTL →
      Deals.getDealInfo
          (Deals.cacheDeal cache t0 cid (Deals.fetchDealFromW3S cid t0 o1)) t1 cid o2 =
        (Deals.fetchDealFromW3S cid t0 o1,
         Deals.cacheDeal cache t0 cid (Deals.fetchDealFromW3S cid t0 o1), false)) ∧
    (t0 + Deals.DEAL_CACHE_TTL ≤ t1 →
      (Deals.getDealInfo
          (Deals.cacheDeal cache t0 cid (Deals.fetchDealFromW3S cid t0 o1)) t1 cid o2).2.2
        = true) ∧
    (∀ d : Deals.DealView, ∀ p ∈ Deals.cacheDeal cache t0 cid d,
      t0 - p.2.timestamp ≤ Deals.DEAL_CACHE_TTL * 2) := by
  have hhit : ∀ t, Deals.getCachedDeal
      (Deals.cacheDeal cache t0 cid (Deals.fetchDealFromW3S cid t0 o1)) t cid =
      if t - t0 < Deals.DEAL_CACHE_TTL
      then some (Deals.fetchDealFromW3S cid t0 o1) else none := by
    intro t
    unfold Deals.getCachedDeal Deals.cacheDeal
    rw [assocGet_assocSet_self]
  refine ⟨?_, ?_, ?_, ?_⟩
  · unfold Deals.getDealInfo
    rw [if_neg hcid, hmiss]
  · intro hle hlt
    unfold Deals.getDealInfo
    rw [if_neg hcid, hhit t1, if_pos (by omega)]
  · intro hexp
    unfold Deals.getDealInfo
    rw [if_neg hcid, hhit t1, if_neg (by omega)]
  · intro d p hp
    rcases mem_assocSet hp with hp | hp
    · rw [hp]
      simp
    · have h2 : ¬ (t0 - p.2.timestamp > Deals.DEAL_CACHE_TTL * 2) := by
        simpa using (List.mem_filter.mp hp).2
      omega

/-- Deal view and pre-populated cache used by the C8 counterexample and
witness: the entry for "QmC" was written at time 0. -/
def c8CachedView : Deals.DealView := { status := "active", deals := [] }

def c8Cache : Deals.Cache := [("QmC", { data := c8CachedView, timestamp := 0 })]

/-- C8 (counterexample): the cache holds an entry for "QmC" written at
time 0 (TTL 300000 ms).  A call at t = 299999 hits the cache and
returns the cached "active" view; a second call two milliseconds later
at t = 300001 — well within 5 minutes of the first call — finds the
entry expired, issues a new query and returns the fresh "not_found"
result.  Two calls within 5 minutes of each other thus do not always
return the identical result. -/
theorem getDealInfo_two_calls_can_differ :
    (Deals.getDealInfo c8Cache 299999 "QmC" (.httpFail 404)).1 = c8CachedView ∧
    (Deals.getDealInfo c8Cache 299999 "QmC" (.httpFail 404)).2.1 = c8Cache ∧
    (Deals.getDealInfo c8Cache 299999 "QmC" (.httpFail 404)).2.2 = false ∧
    (Deals.getDealInfo c8Cache 300001 "QmC" (.httpFail 404)).1 =
      { status := "not_found", deals := [] } ∧
    c8CachedView ≠ { status := "not_found", deals := [] } := by
  exact ⟨rfl, rfl, rfl, rfl, by decide⟩

theorem getDealInfo_cache_ttl_witness :
    (Deals.getDealInfo [] 1000 "QmW" (.httpFail 404) =
      ({ status := "not_found", deals := [] },
       Deals.cacheDeal [] 1000 "QmW" { status := "not_found", deals := [] }, true)) ∧
    (Deals.getDealInfo
        (Deals.cacheDeal [] 1000 "QmW" { status := "not_found", deals := [] })
        2000 "QmW" (.netError "down") =
      ({ status := "not_found", deals := [] },
       Deals.cacheDeal [] 1000 "QmW" { status := "not_found", deals := [] }, false)) ∧
    ((Deals.getDealInfo
        (Deals.cacheDeal [] 1000 "QmW" { status := "not_found", deals := [] })
        400000 "QmW" (.netError "down")).2.2 = true) :=
  ⟨(getDealInfo_cache_ttl [] 1000 2000 "QmW" (.httpFail 404) (.netError "down")
      (by decide) (by decide)).1,
   (getDealInfo_cache_ttl [] 1000 2000 "QmW" (.httpFail 404) (.netError "down")
      (by decide) (by decide)).2.1 (by decide) (by decide),
   (getDealInfo_cache_ttl [] 1000 400000 "QmW" (.httpFail 404) (.netError "down")
      (by decide) (by decide)).2.2.1 (by decide)⟩

/-!
## Claim about the simulation fallback (C9)
-/

/-- C9 (amended): the simulation fallback is a deterministic function
of the locator and the call's clock reading.  Any two fallback results
for the same locator agree on the rolled-up status and on every deal's
provider, identifier, status and piece locator (all derived from the
stable character-sum hash of the locator); the activation and
expiration instants are fixed offsets from the clock reading of the
call, so they coincide exactly for calls sharing the same clock
reading; and `fetchDealFromW3S` yields exactly this simulation on every
query failure other than a 404. -/
theorem simulateDealInfo_deterministic (cid : String) (n1 n2 : Nat) :
    ((Deals.simulateDealInfo cid n1).status = (Deals.simulateDealInfo cid n2).status) ∧
    ((Deals.simulateDealInfo cid n1).deals.map (·.provider) =
      (Deals.simulateDealInfo cid n2).deals.map (·.provider)) ∧
    ((Deals.simulateDealInfo cid n1).deals.map (·.dealId) =
      (Deals.simulateDealInfo cid n2).deals.map (·.dealId)) ∧
    ((Deals.simulateDealInfo cid n1).deals.map (·.status) =
      (Deals.simulateDealInfo cid n2).deals.map (·.status)) ∧
    ((Deals.simulateDealInfo cid n1).deals.map (·.pieceCid) =
      (Deals.simulateDealInfo cid n2).deals.map (·.pieceCid)) ∧
    (∀ n, (Deals.simulateDealInfo cid n).deals.map (·.activation) =
      (List.range (Deals.simulateDealInfo cid n).deals.length).map
        (fun i => n - (30 + i * 10) * (24 * 60 * 60 * 1000))) ∧
    (∀ n, (Deals.simulateDealInfo cid n).deals.map (·.expiration) =
      (List.range (Deals.simulateDealInfo cid n).deals.length).map
        (fun i => n + (180 - i * 30) * (24 * 60 * 60 * 1000))) ∧
    (∀ now st, st ≠ 404 →
      Deals.fetchDealFromW3S cid now (.httpFail st) = Deals.simulateDealInfo cid now) ∧
    (∀ now m,
      Deals.fetchDealFromW3S cid now (.netError m) = Deals.simulateDealInfo cid now) := by
  have h3 : Deals.charSum cid % 3 = 0 ∨ Deals.charSum cid % 3 = 1 ∨
      Deals.charSum cid % 3 = 2 := by omega
  refine ⟨?_, ?_, ?_, ?_, ?_, ?_, ?_, ?_, ?_⟩
  · rcases h3 with h | h | h <;> simp [Deals.simulateDealInfo, h]
  · rcases h3 with h | h | h <;> simp [Deals.simulateDealInfo, h, List.enum]
  · rcases h3 with h | h | h <;> simp [Deals.simulateDealInfo, h, List.enum]
  · rcases h3 with h | h | h <;> simp [Deals.simulateDealInfo, h, List.enum]
  · rcases h3 with h | h | h <;> simp [Deals.simulateDealInfo, h, List.enum]
  · intro n
    rcases h3 with h | h | h <;>
      simp [Deals.simulateDealInfo, h, List.enum, List.range_succ]
  · intro n
    rcases h3 with h | h | h <;>
      simp [Deals.simulateDealInfo, h, List.enum, List.range_succ]
  · intro now st hst
    simp [Deals.fetchDealFromW3S, hst]
  · intro now m
    simp [Deals.fetchDealFromW3S]

theorem simulateDealInfo_deterministic_witness :
    ((Deals.simulateDealInfo "QmB" 1000).deals.map (·.provider) =
      (Deals.simulateDealInfo "QmB" 99999999).deals.map (·.provider)) ∧
    (Deals.fetchDealFromW3S "QmB" 1000 (.httpFail 500) =
      Deals.simulateDealInfo "QmB" 1000) ∧
    (Deals.fetchDealFromW3S "QmB" 1000 (.netError "offline") =
      Deals.simulateDealInfo "QmB" 1000) :=
  ⟨(simulateDealInfo_deterministic "QmB" 1000 99999999).2.1,
   (simulateDealInfo_deterministic "QmB" 1000 99999999).2.2.2.2.2.2.2.1 1000 500
     (by decide),
   (simulateDealInfo_deterministic "QmB" 1000 99999999).2.2.2.2.2.2.2.2 1000 "offline"⟩

/-- C9 (counterexample): two fallback calls for the same locator "b"
made one millisecond apart return different activation instants — the
activation/expiration windows are offsets from the call's `Date.now()`,
so they are not identical across fallback calls at different times. -/
theorem simulateDealInfo_windows_depend_on_clock :
    (Deals.simulateDealInfo "b" 10000000000).deals.map (·.activation) ≠
      (Deals.simulateDealInfo "b" 10000000001).deals.map (·.activation) := by
  decide

/-!
## Claim about failover retrieval (C4)
-/

namespace Gw

/-- Whether a fetch outcome is a success (`response.ok`). -/
def isOkOutcome : FetchOutcome → Bool
  | .ok _ => true
  | _ => false

theorem tryGateways_first_success (cid : String) (att : GatewayWithHealth → FetchOutcome)
    (pre : List GatewayWithHealth) (g : GatewayWithHealth)
    (post : List GatewayWithHealth) (payload : String)
    (hpre : ∀ x ∈ pre, isOkOutcome (att x) = false)
    (hg : att g = .ok payload) :
    ∀ le tr, tryGateways cid att (pre ++ g :: post) le tr =
      (.ok { payload := payload, gateway := g.name, url := g.url ++ cid },
       tr ++ thrownTrace att pre) := by
  induction pre with
  | nil =>
    intro le tr
    simp only [List.nil_append, tryGateways, hg, thrownTrace, List.filterMap_nil,
      List.append_nil]
  | cons x xs ih =>
    intro le tr
    have hx := hpre x (List.mem_cons_self x xs)
    have ih' := ih (fun y hy => hpre y (List.mem_cons_of_mem x hy))
    cases hax : att x with
    | ok p => rw [hax] at hx; exact absurd hx (by simp [isOkOutcome])
    | notOk =>
      simp only [List.cons_append, tryGateways, hax, List.append_eq]
      rw [ih' le tr]
      simp [thrownTrace, hax]
    | thrown m =>
      simp only [List.cons_append, tryGateways, hax, List.append_eq]
      rw [ih' (some m) (tr ++ [(x.name, m)])]
      simp [thrownTrace, hax]

theorem tryGateways_exhausted (cid : String) (att : GatewayWithHealth → FetchOutcome)
    (l : List GatewayWithHealth)
    (hfail : ∀ x ∈ l, isOkOutcome (att x) = false) :
    ∀ le tr, tryGateways cid att l le tr =
      (.error (match (thrownMsgs att l).foldl (fun _ m => some m) le with
               | some m => .thrown m
               | none => .allGatewaysFailed),
       tr ++ thrownTrace att l) := by
  induction l with
  | nil =>
    intro le tr
    simp [tryGateways, thrownTrace, thrownMsgs]
  | cons x xs ih =>
    intro le tr
    have hx := hfail x (List.mem_cons_self x xs)
    have ih' := ih (fun y hy => hfail y (List.mem_cons_of_mem x hy))
    cases hax : att x with
    | ok p => rw [hax] at hx; exact absurd hx (by simp [isOkOutcome])
    | notOk =>
      simp only [tryGateways, hax]
      rw [ih' le tr]
      simp [thrownTrace, thrownMsgs, hax]
    | thrown m =>
      simp only [tryGateways, hax]
      rw [ih' (some m) (tr ++ [(x.name, m)])]
      simp [thrownTrace, thrownMsgs, hax]

end Gw

/-- C4 (amended): `fetchWithFailover` walks the ranked candidate list
(all healthy endpoints in ranked order, or the first three ranked when
none is healthy) strictly in order.  Attempts that throw (network
failure or timeout) record a warning with their error before the next
endpoint is tried; attempts that return an unsuccessful response are
skipped without recording anything.  The first successful response is
returned with the trace of the errors thrown before it — in particular,
when only the third of three candidates succeeds and the first two
threw, the third's payload is returned with exactly two recorded
failures.  When every attempt is exhausted, the call fails with the
last thrown error itself, or with a generic "All gateways failed" error
if no attempt threw. -/
theorem fetchWithFailover_sequential_failover (ch : Gw.GatewayInfo → Gw.GatewayHealth)
    (cid : String) (att : Gw.GatewayWithHealth → Gw.FetchOutcome) :
    (∀ pre g post payload,
      Gw.failoverCandidates ch = pre ++ g :: post →
      (∀ x ∈ pre, Gw.isOkOutcome (att x) = false) →
      att g = .ok payload →
      Gw.fetchWithFailover ch cid att =
        (.ok { payload := payload, gateway := g.name, url := g.url ++ cid },
         Gw.thrownTrace att pre)) ∧
    ((∀ x ∈ Gw.failoverCandidates ch, Gw.isOkOutcome (att x) = false) →
      Gw.fetchWithFailover ch cid att =
        (.error (match (Gw.thrownMsgs att (Gw.failoverCandidates ch)).foldl
                   (fun _ m => some m) none with
                 | some m => .thrown m
                 | none => .allGatewaysFailed),
         Gw.thrownTrace att (Gw.failoverCandidates ch))) := by
  constructor
  · intro pre g post payload hsplit hpre hg
    unfold Gw.fetchWithFailover
    rw [hsplit, Gw.tryGateways_first_success cid att pre g post payload hpre hg none []]
    simp
  · intro hfail
    unfold Gw.fetchWithFailover
    rw [Gw.tryGateways_exhausted cid att (Gw.failoverCandidates ch) hfail none []]
    simp

/-- Health assignment for the C4 scenario: the first three configured
gateways are healthy with latencies 10, 20, 30 ms; the rest are down. -/
def c4Health : Gw.GatewayInfo → Gw.GatewayHealth := fun g =>
  if g.id = "w3s" then { healthy := true, latency := some 10, error := none }
  else if g.id = "dweb" then { healthy := true, latency := some 20, error := none }
  else if g.id = "ipfs-io" then { healthy := true, latency := some 30, error := none }
  else { healthy := false, latency := none, error := some "down" }

/-- The three healthy candidates of `c4Health`, in ranked order. -/
def c4W3s : Gw.GatewayWithHealth :=
  { id := "w3s", name := "Web3.Storage", url := "https://w3s.link/ipfs/",
    priority := 1, type := "primary",
    health := { healthy := true, latency := some 10, error := none } }

def c4Dweb : Gw.GatewayWithHealth :=
  { id := "dweb", name := "Dweb.link", url := "https://dweb.link/ipfs/",
    priority := 2, type := "primary",
    health := { healthy := true, latency := some 20, error := none } }

def c4Ipfs : Gw.GatewayWithHealth :=
  { id := "ipfs-io", name := "IPFS.io", url := "https://ipfs.io/ipfs/",
    priority := 3, type := "public",
    health := { healthy := true, latency := some 30, error := none } }

/-- Attempt function for the C4 scenario: the first two ranked gateways
throw, the third succeeds. -/
def c4Att : Gw.GatewayWithHealth → Gw.FetchOutcome := fun g =>
  if g.id = "w3s" then .thrown "timeout-1"
  else if g.id = "dweb" then .thrown "refused-2"
  else .ok "payload-3"

/-- Health assignment with every gateway down (exercises the
top-three-by-priority fallback order). -/
def c4AllDown : Gw.GatewayInfo → Gw.GatewayHealth := fun _ =>
  { healthy := false, latency := none, error := some "down" }

/-- Attempt function where every attempt throws a distinct error. -/
def c4ThrowAtt : Gw.GatewayWithHealth → Gw.FetchOutcome := fun g =>
  .thrown ("err-" ++ g.id)

theorem fetchWithFailover_sequential_failover_witness :
    (Gw.fetchWithFailover c4Health "QmQ" c4Att =
      (.ok { payload := "payload-3", gateway := "IPFS.io",
             url := "https://ipfs.io/ipfs/QmQ" },
       [("Web3.Storage", "timeout-1"), ("Dweb.link", "refused-2")])) ∧
    (Gw.fetchWithFailover c4AllDown "QmQ" c4ThrowAtt).1 =
      .error (.thrown "err-ipfs-io") := by
  constructor
  · have h := (fetchWithFailover_sequential_failover c4Health "QmQ" c4Att).1
      [c4W3s, c4Dweb] c4Ipfs [] "payload-3" (by decide) (by decide) (by decide)
    rw [h]
    rfl
  · have h := (fetchWithFailover_sequential_failover c4AllDown "QmQ" c4ThrowAtt).2
      (by decide)
    rw [h]
    rfl

/-- C4 (counterexample): with every gateway down, the three attempted
candidates all fail with unsuccessful responses, yet no error is
recorded in the trace (the claim requires three recorded failures) and
the final error is the bare generic "all gateways failed" value carrying
no underlying error; and when the failures are thrown errors, the final
error is the last thrown error itself, not an aggregated
"all endpoints failed" error carrying it. -/
theorem fetchWithFailover_trace_and_error_shape :
    (Gw.fetchWithFailover c4AllDown "QmZ" (fun _ => .notOk) =
      (.error .allGatewaysFailed, [])) ∧
    ((Gw.fetchWithFailover c4AllDown "QmZ" c4ThrowAtt).2.length = 3) ∧
    ((Gw.fetchWithFailover c4AllDown "QmZ" c4ThrowAtt).1 =
      .error (.thrown "err-ipfs-io")) := by
  exact ⟨rfl, rfl, rfl⟩

/-!
## Claim about gateway ranking (C7)
-/

namespace Gw

theorem gatewayLE_healthy_of_healthy {a b : GatewayWithHealth}
    (h : gatewayLE a b) (hb : b.health.healthy = true) :
    a.health.healthy = true := by
  rw [gatewayLE_iff] at h
  unfold sortKey1 at h
  by_cases ha : a.health.healthy
  · exact ha
  · simp [ha, hb] at h

theorem gatewayLE_latency_le {a b : GatewayWithHealth}
    (h : gatewayLE a b) (ha : a.health.healthy = true)
    (hb : b.health.healthy = true) : effLatency a ≤ effLatency b := by
  rw [gatewayLE_iff] at h
  unfold sortKey1 sortKey2 at h
  simp [ha, hb] at h
  exact h

theorem gatewayLE_priority_le {a b : GatewayWithHealth}
    (h : gatewayLE a b) (ha : a.health.healthy = false)
    (hb : b.health.healthy = false) : a.priority ≤ b.priority := by
  rw [gatewayLE_iff] at h
  unfold sortKey1 sortKey2 at h
  simp [ha, hb] at h
  exact h

theorem gateways_withHealth_priority_lt (ch : GatewayInfo → GatewayHealth) :
    (GATEWAYS.map (fun g =>
      ({ toGatewayInfo := g, health := ch g } : GatewayWithHealth))).Pairwise
        (fun a b => a.priority < b.priority) := by
  rw [List.pairwise_map]
  have h : List.Pairwise (fun a b : GatewayInfo => a.priority < b.priority) GATEWAYS := by
    decide
  exact h

theorem eq_of_perm_of_priority_sorted (l₁ l₂ : List GatewayWithHealth)
    (hp : l₁.Perm l₂)
    (h1 : l₁.Pairwise (fun a b => a.priority < b.priority))
    (h2 : l₂.Pairwise (fun a b => a.priority < b.priority)) : l₁ = l₂ := by
  haveI : IsAntisymm GatewayWithHealth (fun a b => a.priority < b.priority ∨ a = b) := by
    constructor
    intro a b hab hba
    rcases hab with h | h
    · rcases hba with h' | h'
      · omega
      · exact h'.symm
    · exact h
  have h1' : List.Sorted (fun a b => a.priority < b.priority ∨ a = b) l₁ :=
    h1.imp (fun h => Or.inl h)
  have h2' : List.Sorted (fun a b => a.priority < b.priority ∨ a = b) l₂ :=
    h2.imp (fun h => Or.inl h)
  exact List.eq_of_perm_of_sorted hp h1' h2' 

end Gw

/-- C7 (amended): for every fixed assignment of health results,
`getGatewaysWithHealth` returns all configured gateways (a permutation
of the configured list with its resolved health); every healthy gateway
precedes every unhealthy one; healthy gateways appear in nondecreasing
order of their effective latency — the sort key `latency || 9999`, under
which a missing or a zero recorded latency counts as 9999 ms, so among
positive recorded latencies lower precedes higher (50 ms before 200 ms);
unhealthy gateways keep exactly their original configured
priority order; and the ordering depends only on the health values of
the configured gateways, so identical health inputs give the identical
ordering. -/
theorem getGatewaysWithHealth_ranking (ch : Gw.GatewayInfo → Gw.GatewayHealth) :
    (Gw.getGatewaysWithHealth ch).Perm
      (Gw.GATEWAYS.map (fun g => { toGatewayInfo := g, health := ch g })) ∧
    (Gw.getGatewaysWithHealth ch).Pairwise
      (fun a b => b.health.healthy = true → a.health.healthy = true) ∧
    ((Gw.getGatewaysWithHealth ch).filter (fun g => g.health.healthy)).Pairwise
      (fun a b => Gw.effLatency a ≤ Gw.effLatency b) ∧
    ((Gw.getGatewaysWithHealth ch).filter (fun g => !g.health.healthy) =
      (Gw.GATEWAYS.map (fun g => { toGatewayInfo := g, health := ch g })).filter
        (fun g => !g.health.healthy)) ∧
    (∀ ch2 : Gw.GatewayInfo → Gw.GatewayHealth,
      (∀ g ∈ Gw.GATEWAYS, ch g = ch2 g) →
      Gw.getGatewaysWithHealth ch = Gw.getGatewaysWithHealth ch2) := by
  have hperm : (Gw.getGatewaysWithHealth ch).Perm
      (Gw.GATEWAYS.map (fun g => { toGatewayInfo := g, health := ch g })) :=
    List.perm_insertionSort _ _
  have hsorted : (Gw.getGatewaysWithHealth ch).Pairwise Gw.gatewayLE :=
    List.sorted_insertionSort _ _
  refine ⟨hperm, ?_, ?_, ?_, ?_⟩
  · exact hsorted.imp (fun h hb => Gw.gatewayLE_healthy_of_healthy h hb)
  · refine (hsorted.filter _).imp_of_mem ?_
    intro a b ha hb hab
    exact Gw.gatewayLE_latency_le hab (List.mem_filter.mp ha).2 (List.mem_filter.mp hb).2
  · have hfperm : ((Gw.getGatewaysWithHealth ch).filter (fun g => !g.health.healthy)).Perm
        ((Gw.GATEWAYS.map (fun g =>
          ({ toGatewayInfo := g, health := ch g } : Gw.GatewayWithHealth))).filter
            (fun g => !g.health.healthy)) :=
      hperm.filter _
    have hin_lt := (Gw.gateways_withHealth_priority_lt ch).filter
      (fun g => !g.health.healthy)
    have hout_le : ((Gw.getGatewaysWithHealth ch).filter
        (fun g => !g.health.healthy)).Pairwise
          (fun a b => a.priority ≤ b.priority) := by
      refine (hsorted.filter _).imp_of_mem ?_
      intro a b ha hb hab
      have ha' := (List.mem_filter.mp ha).2
      have hb' := (List.mem_filter.mp hb).2
      exact Gw.gatewayLE_priority_le hab
        (by simpa using ha') (by simpa using hb')
    have hnodup_in : (((Gw.GATEWAYS.map (fun g =>
        ({ toGatewayInfo := g, health := ch g } : Gw.GatewayWithHealth))).filter
          (fun g => !g.health.healthy)).map (fun g => g.priority)).Nodup :=
      List.pairwise_map.mpr (hin_lt.imp (fun h => Nat.ne_of_lt h))
    have hnodup_out : (((Gw.getGatewaysWithHealth ch).filter
        (fun g => !g.health.healthy)).map (fun g => g.priority)).Nodup :=
      ((hfperm.map _).symm).nodup hnodup_in
    have hne_out := List.pairwise_map.mp hnodup_out
    have hout_lt : ((Gw.getGatewaysWithHealth ch).filter
        (fun g => !g.health.healthy)).Pairwise
          (fun a b => a.priority < b.priority) :=
      (hout_le.and hne_out).imp (fun h => Nat.lt_of_le_of_ne h.1 h.2)
    exact Gw.eq_of_perm_of_priority_sorted _ _ hfperm hout_lt hin_lt
  · intro ch2 hch
    unfold Gw.getGatewaysWithHealth
    rw [List.map_congr_left (fun g hg => by rw [hch g hg])]

/-- Health assignment for the C7 witness: two healthy gateways with 50
and 200 ms, the rest down. -/
def c7Health : Gw.GatewayInfo → Gw.GatewayHealth := fun g =>
  if g.id = "dweb" then { healthy := true, latency := some 50, error := none }
  else if g.id = "pinata" then { healthy := true, latency := some 200, error := none }
  else { healthy := false, latency := none, error := some "down" }

/-- A syntactically different assignment that agrees with `c7Health` on
every configured gateway. -/
def c7HealthB : Gw.GatewayInfo → Gw.GatewayHealth := fun g =>
  if g.id = "no-such-gateway" then { healthy := true, latency := some 1, error := none }
  else c7Health g

theorem getGatewaysWithHealth_ranking_witness :
    Gw.getGatewaysWithHealth c7Health = Gw.getGatewaysWithHealth c7HealthB ∧
    ((Gw.getGatewaysWithHealth c7Health).filter (fun g => g.health.healthy)).map
      (fun g => g.health.latency) = [some 50, some 200] ∧
    ((Gw.getGatewaysWithHealth c7Health).filter (fun g => !g.health.healthy)).map
      (fun g => g.priority) = [1, 3, 4, 6] :=
  ⟨(getGatewaysWithHealth_ranking c7Health).2.2.2.2 c7HealthB (by decide),
   rfl, rfl⟩

/-- Health assignment exposing the zero-latency edge: one healthy
gateway with a recorded latency of 0 ms, one with 50 ms. -/
def c7ZeroHealth : Gw.GatewayInfo → Gw.GatewayHealth := fun g =>
  if g.id = "w3s" then { healthy := true, latency := some 0, error := none }
  else if g.id = "dweb" then { healthy := true, latency := some 50, error := none }
  else { healthy := false, latency := none, error := some "down" }

/-- C7 (counterexample): with a healthy gateway at 0 ms and one at
50 ms, the ranking places the 50 ms gateway first — the recorded
latencies of the healthy gateways come out as [50, 0], which is not
nondecreasing, because `latency || 9999` treats the recorded latency 0
as 9999. -/
theorem getGatewaysWithHealth_zero_latency_misordered :
    ((Gw.getGatewaysWithHealth c7ZeroHealth).filter (fun g => g.health.healthy)).map
      (fun g => g.health.latency) = [some 50, some 0] := by
  rfl
